import Mathlib

/-!
Verification development for the ElizaOS central message-routing layer:
the `MessageBusService` (per-agent bridge between the internal bus and an
agent runtime), the central channel/message HTTP routes, and the channel
media-upload handler, shallowly embedded from
`packages/cli/src/server/api/messaging/channels.ts` and
`packages/cli/src/server/upload.ts`.
-/

namespace Eliza

/-- JavaScript truthiness of a possibly-absent string (`undefined`/`null`
and the empty string are falsy). -/
def jsTruthy : Option String → Bool
  | none => false
  | some s => s != ""

/-- JavaScript `a || b` over possibly-absent strings: the first operand if
truthy, otherwise the second. -/
def jsOr (a b : Option String) : Option String :=
  if jsTruthy a then a else b

/-- JavaScript `s || dflt` where the fallback is a plain string. -/
def jsOrStr (a : Option String) (dflt : String) : String :=
  match a with
  | none => dflt
  | some s => if s != "" then s else dflt

/-- Hex digit test used by UUID validation. -/
def isHexDigit (c : Char) : Bool :=
  c.isDigit || ('a' ≤ c && c ≤ 'f') || ('A' ≤ c && c ≤ 'F')

/-- Modelled from the spec: `validateUuid` comes from `@elizaos/core`,
which is not under `src/`; the spec treats ids as UUID identifiers, so we
model validity as the canonical 8-4-4-4-12 hex UUID shape. -/
def isValidUuidStr (s : String) : Bool :=
  let cs := s.data
  cs.length == 36 &&
  (List.range 36).all (fun i =>
    let c := cs.getD i ' '
    if i == 8 || i == 13 || i == 18 || i == 23 then c == '-' else isHexDigit c)

/-- Source `validateUuid` as used in the routes: returns the id when valid, null
otherwise. -/
def validateUuid (s : String) : Option String :=
  if isValidUuidStr s then some s else none

/-- Source `validateUuid` applied to a possibly-absent body field. -/
def validateUuidOpt (s : Option String) : Option String :=
  s.bind validateUuid

/-- Source `DEFAULT_SERVER_ID` from `channels.ts` line 10. -/
def DEFAULT_SERVER_ID : String := "00000000-0000-0000-0000-000000000000"

/-- Whether `pat` is a prefix of `s`, over character lists. -/
def hasPrefixChars : List Char → List Char → Bool
  | _, [] => true
  | [], _ :: _ => false
  | a :: as, b :: bs => a == b && hasPrefixChars as bs

/-- Whether `pat` occurs somewhere in `s`, over character lists. -/
def hasSubChars : List Char → List Char → Bool
  | [], pat => pat.isEmpty
  | a :: rest, pat => hasPrefixChars (a :: rest) pat || hasSubChars rest pat

/-- Substring occurrence test (JS `String.prototype.includes`). -/
def strIncludes (s pat : String) : Bool :=
  hasSubChars s.data pat.data

/-- Modelled from the spec: `createUniqueUuid` from `@elizaos/core` (not
under `src/`) derives a stable agent-local id by deterministic hashing of
`(agentId, seed)`; we model it as an injective deterministic pairing. -/
def createUniqueUuid (agentId seed : String) : String :=
  agentId ++ "::" ++ seed

/-! ## MessageBusService (channels.ts lines 1633-2039) -/

/-- Metadata fields of a bus message that the service reads
(`metadata?.channelType`, `metadata?.isDm`, plus the display fields used
when building names). -/
structure BusMeta where
  channelType : Option String := none
  isDm : Bool := false
  serverName : Option String := none
  channelName : Option String := none
  attachments : Option (List String) := none
deriving Repr, DecidableEq

/-- Source `MessageServiceMessage` (channels.ts lines 1634-1647). -/
structure BusMsg where
  id : String
  channel_id : String
  server_id : String
  author_id : String
  author_display_name : Option String := none
  content : String
  source_id : Option String := none
  source_type : Option String := none
  in_reply_to_message_id : Option String := none
  created_at : Nat
  metadata : Option BusMeta := none
deriving Repr, DecidableEq

/-- Source `Content` of the agent memory built in `createAgentMemory`
(channels.ts lines 1850-1857). -/
structure MemContent where
  text : String
  source : String
  attachments : Option (List String)
  inReplyTo : Option String
deriving Repr, DecidableEq

/-- Source `memory.metadata` built in `createAgentMemory` (channels.ts lines
1867-1873); `type` is always the literal "message". -/
structure MemMetadata where
  type : String
  source : String
  sourceId : String
deriving Repr, DecidableEq

/-- The agent `Memory` built in `createAgentMemory` (channels.ts lines
1859-1874). -/
structure AgentMemory where
  id : String
  entityId : String
  agentId : String
  roomId : String
  worldId : String
  content : MemContent
  createdAt : Nat
  metadata : MemMetadata
deriving Repr, DecidableEq

/-- Mutable state of one `MessageBusService` instance together with the
agent-runtime stores it reads and writes: `subscribedServers` is the
service's own `Set<UUID>`; `memories` and `entities` are the runtime's
stores keyed by id (`getMemoryById` / `getEntityById`). -/
structure MBState where
  subscribedServers : Finset String
  memories : List String
  entities : List String
deriving DecidableEq

/-- Environment of external reads: the central participants endpoint
(`getChannelParticipants`, channels.ts lines 1686-1707) as a function from
channel id to the participant list it returns. -/
structure BusEnv where
  participants : String → List String

/-- Observable effects of handling one incoming bus message, in the order
the service performs them. -/
inductive BusEffect where
  | fetchParticipants (channelId : String)
  | ensureWorld (worldId : String)
  | ensureRoom (roomId : String)
  | createEntity (entityId : String)
  | emitMessageReceived (memory : AgentMemory)
deriving Repr, DecidableEq

/-- Source `validateServerSubscription` (channels.ts lines 1751-1762): true iff
the message's server is in the subscribed set. -/
def validateServerSubscription (st : MBState) (msg : BusMsg) : Bool :=
  decide (msg.server_id ∈ st.subscribedServers)

/-- Source `validateNotSelfMessage` (channels.ts lines 1764-1772): false when the
agent authored the message. -/
def validateNotSelfMessage (agentId : String) (msg : BusMsg) : Bool :=
  msg.author_id != agentId

/-- Source `ensureAuthorEntityExists` (channels.ts lines 1825-1842): creates the
derived author entity when the runtime does not have it yet; returns the
updated state, the effects performed, and the derived entity id. -/
def ensureAuthorEntityExists (agentId : String) (st : MBState) (msg : BusMsg) :
    MBState × List BusEffect × String :=
  let agentAuthorEntityId := createUniqueUuid agentId msg.author_id
  if st.entities.contains agentAuthorEntityId then
    (st, [], agentAuthorEntityId)
  else
    ({ st with entities := agentAuthorEntityId :: st.entities },
     [BusEffect.createEntity agentAuthorEntityId], agentAuthorEntityId)

/-- Source `createAgentMemory` (channels.ts lines 1844-1874). -/
def createAgentMemory (agentId : String) (msg : BusMsg)
    (agentAuthorEntityId agentRoomId agentWorldId : String) : AgentMemory :=
  { id := createUniqueUuid agentId msg.id
    entityId := agentAuthorEntityId
    agentId := agentId
    roomId := agentRoomId
    worldId := agentWorldId
    content :=
      { text := msg.content
        source := jsOrStr msg.source_type "central-bus"
        attachments := msg.metadata.bind (fun m => m.attachments)
        inReplyTo := msg.in_reply_to_message_id.map (createUniqueUuid agentId) }
    createdAt := msg.created_at
    metadata :=
      { type := "message"
        source := jsOrStr msg.source_type "central-bus"
        sourceId := msg.id } }

/-- Source `handleIncomingMessage` (channels.ts lines 1876-1943): participant
filter, server-subscription filter, self-author filter, idempotent
world/room creation, author-entity creation, duplicate-delivery guard via
`getMemoryById` on the derived memory id, then `MESSAGE_RECEIVED`
emission. Modelled from the spec for the one part outside `src/`: the
runtime's `MESSAGE_RECEIVED` handler (owned by `@elizaos/core`'s
bootstrap plugin) persists the emitted Memory under its derived id, which
we record by inserting the id into `memories` at emission time — this is
what the pre-check against existing memory by derived id relies on. -/
def handleIncomingMessage (env : BusEnv) (agentId : String) (st : MBState)
    (msg : BusMsg) : MBState × List BusEffect :=
  let participants := env.participants msg.channel_id
  if ¬ participants.contains agentId then
    (st, [BusEffect.fetchParticipants msg.channel_id])
  else if ¬ validateServerSubscription st msg then
    (st, [BusEffect.fetchParticipants msg.channel_id])
  else if ¬ validateNotSelfMessage agentId msg then
    (st, [BusEffect.fetchParticipants msg.channel_id])
  else
    let agentWorldId := createUniqueUuid agentId msg.server_id
    let agentRoomId := createUniqueUuid agentId msg.channel_id
    let entStep := ensureAuthorEntityExists agentId st msg
    let st1 := entStep.1
    let entEffects := entStep.2.1
    let agentAuthorEntityId := entStep.2.2
    let agentMemory := createAgentMemory agentId msg agentAuthorEntityId agentRoomId agentWorldId
    let baseEffects :=
      BusEffect.fetchParticipants msg.channel_id ::
      BusEffect.ensureWorld agentWorldId ::
      BusEffect.ensureRoom agentRoomId :: entEffects
    if st1.memories.contains agentMemory.id then
      (st1, baseEffects)
    else
      ({ st1 with memories := agentMemory.id :: st1.memories },
       baseEffects ++ [BusEffect.emitMessageReceived agentMemory])

/-- Source `handleServerAgentUpdate` (channels.ts lines 1733-1749). -/
def handleServerAgentUpdateSet (agentId : String) (subscribed : Finset String)
    (dataAgentId dataType dataServerId : String) : Finset String :=
  if dataAgentId != agentId then
    subscribed
  else if dataType == "agent_added_to_server" then
    insert dataServerId subscribed
  else if dataType == "agent_removed_from_server" then
    subscribed.erase dataServerId
  else
    subscribed

/-- Effect classifiers used to state the claims. -/
def BusEffect.isEmit : BusEffect → Bool
  | BusEffect.emitMessageReceived _ => true
  | _ => false

def BusEffect.isCreation : BusEffect → Bool
  | BusEffect.ensureWorld _ => true
  | BusEffect.ensureRoom _ => true
  | BusEffect.createEntity _ => true
  | _ => false

/-! ## sendAgentResponseToBus (channels.ts lines 1945-2032) -/

/-- Generated reply `Content` as read by `sendAgentResponseToBus`. -/
structure ReplyContent where
  text : Option String := none
  thought : Option String := none
  actions : Option (List String) := none
  attachments : Option (List String) := none
deriving Repr, DecidableEq

/-- Agent-local `Room` as read back in `sendAgentResponseToBus`
(`room?.channelId`, `room?.type`). -/
structure AgentRoom where
  channelId : Option String := none
  type : Option String := none
deriving Repr, DecidableEq

/-- Agent-local `World` as read back in `sendAgentResponseToBus`
(`world?.serverId`). -/
structure AgentWorld where
  serverId : Option String := none
deriving Repr, DecidableEq

/-- Source `raw_message` object built for the submit payload (channels.ts line
1997). -/
structure ReplyRaw where
  text : String
  thought : Option String
  actions : Option (List String)
deriving Repr, DecidableEq

/-- Source `metadata` object built for the submit payload (channels.ts lines
1998-2004). -/
structure ReplyMeta where
  agent_id : String
  agentName : String
  attachments : Option (List String)
  channelType : Option String
  isDm : Bool
deriving Repr, DecidableEq

/-- Source `payloadToServer` built in `sendAgentResponseToBus` (channels.ts lines
1990-2005). -/
structure SubmitPayload where
  channel_id : String
  server_id : String
  author_id : String
  content : String
  in_reply_to_message_id : Option String
  source_type : String
  raw_message : ReplyRaw
  metadata : ReplyMeta
deriving Repr, DecidableEq

/-- The HTTP POST that `sendAgentResponseToBus` performs when nothing
filters the reply out: target URL and JSON payload. -/
structure SubmitPost where
  url : String
  payload : SubmitPayload
deriving Repr, DecidableEq

/-- Runtime lookups `sendAgentResponseToBus` performs: `getRoom`,
`getWorld`, `getMemoryById` (for mapping the in-reply-to memory back to
its central source id), and the configured central-server base URL. -/
structure RespEnv where
  getRoom : String → Option AgentRoom
  getWorld : String → Option AgentWorld
  getMemorySourceId : String → Option String
  baseUrl : String

/-- The IGNORE-action filter (channels.ts line 1954):
`content.actions && content.actions.includes('IGNORE')`. -/
def hasIgnoreAction (c : ReplyContent) : Bool :=
  match c.actions with
  | none => false
  | some l => l.contains "IGNORE"

/-- The empty-text filter (channels.ts line 1962):
`!content.text || content.text.trim() === ''`. -/
def blankText (c : ReplyContent) : Bool :=
  match c.text with
  | none => true
  | some t => t == "" || t.trim == ""

/-- Source `sendAgentResponseToBus` (channels.ts lines 1945-2032): returns the
POST made to `{baseUrl}/api/messages/submit`, or `none` when the reply is
filtered out (IGNORE action, blank text, or the agent room/world do not
map back to central ids). -/
def sendAgentResponseToBus (env : RespEnv) (agentId agentName : String)
    (agentRoomId agentWorldId : String) (content : ReplyContent)
    (inReplyToAgentMemoryId : Option String) (originalMessage : Option BusMsg) :
    Option SubmitPost :=
  if hasIgnoreAction content then
    none
  else if blankText content then
    none
  else
    let room := env.getRoom agentRoomId
    let world := env.getWorld agentWorldId
    let channelId := room.bind (fun r => r.channelId)
    let serverId := world.bind (fun w => w.serverId)
    if ¬ jsTruthy channelId ∨ ¬ jsTruthy serverId then
      none
    else
      let centralInReplyTo :=
        match inReplyToAgentMemoryId with
        | none => none
        | some mid =>
          match env.getMemorySourceId mid with
          | some sid => if sid != "" then some sid else none
          | none => none
      let text := (content.text).getD ""
      let origMetaChannelType := originalMessage.bind (fun m => m.metadata.bind (fun md => md.channelType))
      let roomType := room.bind (fun r => r.type)
      let effChannelType := jsOr origMetaChannelType roomType
      let origIsDm := match originalMessage.bind (fun m => m.metadata) with
        | some md => md.isDm
        | none => false
      some
        { url := env.baseUrl ++ "/api/messages/submit"
          payload :=
            { channel_id := channelId.getD ""
              server_id := serverId.getD ""
              author_id := agentId
              content := text
              in_reply_to_message_id := centralInReplyTo
              source_type := "agent_response"
              raw_message := { text := text, thought := content.thought, actions := content.actions }
              metadata :=
                { agent_id := agentId
                  agentName := agentName
                  attachments := content.attachments
                  channelType := effChannelType
                  isDm := origIsDm || effChannelType == some "DM" } } }

/-! ## Central channel/message HTTP routes (channels.ts lines 29-259) -/

/-- Request-body `metadata` fields read anywhere on the GUI message path
(POST handler, GET transform, and the client UI transform). -/
structure Metadata where
  isDm : Bool := false
  channelType : Option String := none
  channel_type : Option String := none
  targetUserId : Option String := none
  recipientId : Option String := none
  user_display_name : Option String := none
  agentName : Option String := none
  authorDisplayName : Option String := none
  serverId : Option String := none
  attachments : Option (List String) := none
deriving Repr, DecidableEq

/-- Source `raw_message` payload as stored with a message and re-read by the GET
transform (`rawMessage?.thought`, `rawMessage?.actions`). -/
structure RawMessage where
  text : Option String := none
  thought : Option String := none
  actions : Option (List String) := none
deriving Repr, DecidableEq

/-- Metadata attached to an auto-created channel (channels.ts lines
104-110); `created_at_ms` models the `new Date().toISOString()` stamp
with the handler's clock parameter. -/
structure ChannelMeta where
  created_by : String
  created_for_user : String
  created_at_ms : Nat
  channel_type : String
  base : Option Metadata
deriving Repr, DecidableEq

/-- A central `Channel` row (`channelData`, channels.ts lines 96-111);
`type` holds the `ChannelType` string enum value ("DM" / "GROUP" /
"WORLD"). -/
structure ChannelRec where
  id : String
  messageServerId : String
  name : String
  type : String
  sourceType : String
  metadata : ChannelMeta
deriving Repr, DecidableEq

/-- A central root-message row as created by `createMessage` from
`newRootMessageData` (channels.ts lines 156-168). -/
structure MessageRec where
  id : String
  channelId : String
  authorId : String
  content : String
  inReplyToRootMessageId : Option String
  rawMessage : Option RawMessage
  metadata : Option Metadata
  sourceType : String
  sourceId : Option String
  createdAt : Nat
  updatedAt : Nat
deriving Repr, DecidableEq

/-- Source `messageForBus` (channels.ts lines 174-187). -/
structure MessageForBus where
  id : String
  channel_id : String
  server_id : String
  author_id : String
  content : String
  created_at : Nat
  source_type : String
  raw_message : Option RawMessage
  metadata : Option Metadata
  author_display_name : Option String
  in_reply_to_message_id : Option String
  source_id : Option String
deriving Repr, DecidableEq

/-- The `messageBroadcast` socket event payload (channels.ts lines
197-206). -/
structure SocketBroadcast where
  senderId : String
  senderName : String
  text : String
  roomId : String
  serverId : String
  createdAt : Nat
  source : String
  id : String
deriving Repr, DecidableEq

/-- Central database state behind `serverInstance`: servers, channels,
per-channel participant lists, and message rows. -/
structure Db where
  servers : List String
  channels : List ChannelRec
  channelParticipants : List (String × List String)
  messages : List MessageRec
deriving DecidableEq

/-- Ordered trace of database writes the POST handler performs. -/
inductive DbOp where
  | createChannel (channel : ChannelRec) (participants : List String)
  | createMessage (message : MessageRec)
deriving Repr, DecidableEq

/-- Events emitted on the internal bus by the POST handler. -/
inductive BusEvent where
  | new_message (message : MessageForBus)
deriving Repr, DecidableEq

/-- Body of `POST /central-channels/:channelId/messages` plus the
`:channelId` route parameter (channels.ts lines 29-39). -/
structure PostMsgReq where
  channelIdRaw : String
  author_id : Option String := none
  content : Option String := none
  in_reply_to_message_id : Option String := none
  server_id : Option String := none
  raw_message : Option RawMessage := none
  metadata : Option Metadata := none
  source_type : Option String := none
deriving Repr, DecidableEq

/-- The fields extracted when the request passes validation. -/
structure ValidatedPost where
  channelId : String
  authorId : String
  content : String
  serverId : String
deriving Repr, DecidableEq

/-- Source `isValidServerId` (channels.ts line 42): the reserved all-zero default
id or any valid UUID. -/
def serverIdAccepted (sid : Option String) : Bool :=
  sid == some DEFAULT_SERVER_ID || (validateUuidOpt sid).isSome

/-- The request guard of the POST handler (channels.ts lines 44-49):
`!channelIdParam || !validateUuid(author_id) || !content ||
!isValidServerId` — `none` means the handler answers 400. -/
def postValidation (req : PostMsgReq) : Option ValidatedPost :=
  match validateUuid req.channelIdRaw, validateUuidOpt req.author_id,
        req.content, req.server_id with
  | some cid, some aid, some c, some sid =>
    if c != "" && serverIdAccepted req.server_id then
      some { channelId := cid, authorId := aid, content := c, serverId := sid }
    else
      none
  | _, _, _, _ => none

/-- Source `isDmChannel` (channels.ts lines 91-94). -/
def isDmRequest (md : Option Metadata) : Bool :=
  match md with
  | none => false
  | some m => m.isDm || m.channelType == some "DM" || m.channel_type == some "DM"

/-- Source `metadata?.targetUserId || metadata?.recipientId` (channels.ts
line 122). -/
def dmOtherParticipant (md : Option Metadata) : Option String :=
  match md with
  | none => none
  | some m => jsOr m.targetUserId m.recipientId

/-- Source `channelData` for the auto-created channel (channels.ts lines
96-111). -/
def autoChannelData (req : PostMsgReq) (v : ValidatedPost) (now : Nat) : ChannelRec :=
  let isDm := isDmRequest req.metadata
  { id := v.channelId
    messageServerId := v.serverId
    name := (if isDm then "DM " else "Chat ") ++ v.channelId.take 8
    type := if isDm then "DM" else "GROUP"
    sourceType := "auto_created"
    metadata :=
      { created_by := "gui_auto_creation"
        created_for_user := v.authorId
        created_at_ms := now
        channel_type := if isDm then "DM" else "GROUP"
        base := req.metadata } }

/-- Participant list for the auto-created channel (channels.ts lines
118-133): the author, plus the DM target when present and a valid
UUID. -/
def autoParticipants (req : PostMsgReq) (v : ValidatedPost) : List String :=
  if isDmRequest req.metadata then
    match dmOtherParticipant req.metadata with
    | some o => if o != "" && (validateUuid o).isSome then [v.authorId, o] else [v.authorId]
    | none => [v.authorId]
  else
    [v.authorId]

/-- The message row created from `newRootMessageData` (channels.ts lines
156-168); `freshId` models the id the storage layer assigns, `now` the
row timestamps. -/
def storedMessage (req : PostMsgReq) (v : ValidatedPost) (freshId : String)
    (now : Nat) : MessageRec :=
  { id := freshId
    channelId := v.channelId
    authorId := v.authorId
    content := v.content
    inReplyToRootMessageId :=
      match req.in_reply_to_message_id with
      | some s => if s != "" then validateUuid s else none
      | none => none
    rawMessage := req.raw_message
    metadata := req.metadata
    sourceType := jsOrStr req.source_type "eliza_gui"
    sourceId := none
    createdAt := now
    updatedAt := now }

/-- Source `messageForBus` built from the created row (channels.ts lines
174-187). -/
def busMessageOf (req : PostMsgReq) (v : ValidatedPost) (msg : MessageRec) :
    MessageForBus :=
  { id := msg.id
    channel_id := msg.channelId
    server_id := v.serverId
    author_id := msg.authorId
    content := msg.content
    created_at := msg.createdAt
    source_type := msg.sourceType
    raw_message := msg.rawMessage
    metadata := msg.metadata
    author_display_name := (req.metadata).bind (fun m => m.user_display_name)
    in_reply_to_message_id := msg.inReplyToRootMessageId
    source_id := none }

/-- The `messageBroadcast` socket payload (channels.ts lines 197-206). -/
def socketBroadcastOf (req : PostMsgReq) (v : ValidatedPost) (msg : MessageRec) :
    SocketBroadcast :=
  { senderId := v.authorId
    senderName := jsOrStr ((req.metadata).bind (fun m => m.user_display_name)) "User"
    text := v.content
    roomId := v.channelId
    serverId := v.serverId
    createdAt := msg.createdAt
    source := msg.sourceType
    id := msg.id }

/-- Result of one POST request: HTTP status, updated database, ordered
database-write trace, bus events, socket events, and the 201 body. -/
structure PostMsgResult where
  status : Nat
  db : Db
  dbTrace : List DbOp
  busEvents : List BusEvent
  socketEvents : List SocketBroadcast
  resBody : Option MessageForBus
deriving DecidableEq

/-- Shared tail of the POST handler (channels.ts lines 156-216): create
the message row, guard on the assigned id (`!createdRootMessage.id`
throws into the 500 catch), then emit the bus event, the socket event
when a socket server is attached, and answer 201. -/
def finishCreateMessage (db : Db) (trace0 : List DbOp) (hasSocket : Bool)
    (freshId : String) (now : Nat) (req : PostMsgReq) (v : ValidatedPost) :
    PostMsgResult :=
  let msg := storedMessage req v freshId now
  let db2 := { db with messages := db.messages ++ [msg] }
  let trace := trace0 ++ [DbOp.createMessage msg]
  if freshId == "" then
    { status := 500, db := db2, dbTrace := trace, busEvents := [],
      socketEvents := [], resBody := none }
  else
    let mfb := busMessageOf req v msg
    { status := 201
      db := db2
      dbTrace := trace
      busEvents := [BusEvent.new_message mfb]
      socketEvents := if hasSocket then [socketBroadcastOf req v msg] else []
      resBody := some mfb }

/-- Source `POST /central-channels/:channelId/messages` (channels.ts lines
29-217): validation guard, channel-existence check, auto-creation of a
missing channel (after verifying the server exists), then message
creation and fan-out. -/
def handlePostChannelMessage (db : Db) (hasSocket : Bool) (freshId : String)
    (now : Nat) (req : PostMsgReq) : PostMsgResult :=
  match postValidation req with
  | none =>
    { status := 400, db := db, dbTrace := [], busEvents := [],
      socketEvents := [], resBody := none }
  | some v =>
    let channelExists := db.channels.any (fun c => c.id == v.channelId)
    if channelExists then
      finishCreateMessage db [] hasSocket freshId now req v
    else if ¬ db.servers.contains v.serverId then
      { status := 500, db := db, dbTrace := [], busEvents := [],
        socketEvents := [], resBody := none }
    else
      let chData := autoChannelData req v now
      let participants := autoParticipants req v
      let db1 :=
        { db with
            channels := db.channels ++ [chData]
            channelParticipants := (v.channelId, participants) :: db.channelParticipants }
      finishCreateMessage db1 [DbOp.createChannel chData participants]
        hasSocket freshId now req v

/-- Enriched metadata on a GET-transformed message (channels.ts lines
243-247): the stored metadata spread together with `thought` and
`actions` pulled out of the raw payload. -/
structure GuiMeta where
  base : Option Metadata
  thought : Option String
  actions : Option (List String)
deriving Repr, DecidableEq

/-- A message as returned by `GET /central-channels/:channelId/messages`
(channels.ts lines 233-250): the stored row spread, plus numeric
`created_at` / `updated_at`, plus enriched metadata. -/
structure GuiMessage where
  id : String
  channelId : String
  authorId : String
  authorDisplayName : Option String
  content : String
  sourceType : String
  serverId : Option String
  createdAt : Nat
  created_at : Nat
  updated_at : Nat
  metadata : GuiMeta
deriving Repr, DecidableEq

/-- The per-message GET transform (channels.ts lines 233-250). -/
def transformMessageForGui (msg : MessageRec) : GuiMessage :=
  { id := msg.id
    channelId := msg.channelId
    authorId := msg.authorId
    authorDisplayName := none
    content := msg.content
    sourceType := msg.sourceType
    serverId := none
    createdAt := msg.createdAt
    created_at := msg.createdAt
    updated_at := msg.updatedAt
    metadata :=
      { base := msg.metadata
        thought := msg.rawMessage.bind (fun r => r.thought)
        actions := msg.rawMessage.bind (fun r => r.actions) } }

/-- Modelled from the spec: `serverInstance.getMessagesForChannel` lives
in the `AgentServer` storage layer (not under `src/`); the spec says the
endpoint is paged by `limit` and `before` timestamp, so we model it as
the channel's messages strictly older than `before`, newest first,
truncated to `limit`. -/
def getMessagesForChannel (db : Db) (channelId : String) (limit : Nat)
    (before : Option Nat) : List MessageRec :=
  ((db.messages.filter (fun m =>
      m.channelId == channelId &&
      match before with
      | some b => m.createdAt < b
      | none => true)).reverse).take limit

/-- Source `GET /central-channels/:channelId/messages` (channels.ts lines
220-259): status and the transformed message list. -/
def handleGetChannelMessages (db : Db) (channelIdRaw : String) (limit : Nat)
    (before : Option Nat) : Nat × List GuiMessage :=
  match validateUuid channelIdRaw with
  | none => (400, [])
  | some cid => (200, (getMessagesForChannel db cid limit before).map transformMessageForGui)

/-- The client-side UI message (use-query-hooks.ts lines 280-291,
366-385). -/
structure UiMessage where
  id : String
  text : String
  name : String
  senderId : String
  isAgent : Bool
  createdAt : Nat
  attachments : Option (List String)
  thought : Option String
  actions : Option (List String)
  channelId : String
  serverId : Option String
  source : String
  isLoading : Bool
deriving Repr, DecidableEq

/-- Source `transformServerMessageToUiMessage` (use-query-hooks.ts lines
325-388); `userName` models the client's `USER_NAME` constant, which is
configuration outside `src/`. -/
def transformServerMessageToUiMessage (currentClientCentralId userName : String)
    (initialServerId serverIdToUse : Option String) (sm : GuiMessage) : UiMessage :=
  let isAgent := sm.authorId != currentClientCentralId
  let timestamp := sm.createdAt
  { id := sm.id
    text := sm.content
    name :=
      if isAgent then
        jsOrStr (jsOr (sm.metadata.base.bind (fun m => m.agentName))
          (jsOr (sm.metadata.base.bind (fun m => m.authorDisplayName))
            sm.authorDisplayName)) "Agent"
      else
        userName
    senderId := sm.authorId
    isAgent := isAgent
    createdAt := timestamp
    attachments := sm.metadata.base.bind (fun m => m.attachments)
    thought := if isAgent then sm.metadata.thought else none
    actions := if isAgent then sm.metadata.actions else none
    channelId := sm.channelId
    serverId :=
      jsOr serverIdToUse
        (jsOr (sm.metadata.base.bind (fun m => m.serverId))
          (jsOr sm.serverId initialServerId))
    source := sm.sourceType
    isLoading := false }

/-! ## Channel media upload (channels.ts lines 607-680) -/

/-- The multer file object fields the handler reads. -/
structure UploadFile where
  mimetype : String
  filename : String
  originalname : String
  size : Nat
deriving Repr, DecidableEq

/-- Success body of the upload route (channels.ts lines 661-670). -/
structure UploadData where
  url : String
  type : String
  filename : String
  originalName : String
  size : Nat
deriving Repr, DecidableEq

/-- Source `maxFileSize = 50 * 1024 * 1024` (channels.ts line 647). -/
def MAX_UPLOAD_BYTES : Nat := 50 * 1024 * 1024

/-- Source `POST /channels/:channelId/upload-media` (channels.ts lines 607-680).
`allowedMimes` models `ALLOWED_MEDIA_MIME_TYPES`, which is defined in
`shared/constants` outside `src/`, so the allow-list is a parameter. -/
def handleChannelUpload (allowedMimes : List String) (channelIdRaw : String)
    (file : Option UploadFile) : Nat × Option UploadData :=
  match validateUuid channelIdRaw with
  | none => (400, none)
  | some channelId =>
    match file with
    | none => (400, none)
    | some mediaFile =>
      if ¬ allowedMimes.contains mediaFile.mimetype then
        (400, none)
      else if mediaFile.filename == "" || strIncludes mediaFile.filename ".."
          || strIncludes mediaFile.filename "/" then
        (400, none)
      else if mediaFile.size > MAX_UPLOAD_BYTES then
        (400, none)
      else
        (200, some
          { url := "/media/uploads/channels/" ++ channelId ++ "/" ++ mediaFile.filename
            type := mediaFile.mimetype
            filename := mediaFile.filename
            originalName := mediaFile.originalname
            size := mediaFile.size })

/-! ## Concrete example inputs -/

/-- A bus environment whose participants endpoint lists `agent-1` and
`user-1` for every channel. -/
def busEnvEx : BusEnv := ⟨fun _ => ["agent-1", "user-1"]⟩

/-- A fresh service state subscribed to `srv-1`. -/
def mbStateEx : MBState := ⟨{"srv-1"}, [], []⟩

/-- A bus message from `user-1` on server `srv-1`. -/
def busMsgEx : BusMsg :=
  { id := "msg-1", channel_id := "chan-1", server_id := "srv-1",
    author_id := "user-1", content := "hello", created_at := 5 }

/-- The example message re-sent with the agent itself as author. -/
def selfMsgEx : BusMsg := { busMsgEx with author_id := "agent-1" }

/-- The example message re-sent for an unsubscribed server. -/
def unsubMsgEx : BusMsg := { busMsgEx with server_id := "srv-404" }

/-- A reply whose actions include IGNORE. -/
def ignoreContentEx : ReplyContent := { text := some "ok", actions := some ["IGNORE"] }

/-- A response-path environment mapping the agent room/world back to
`chan-1` / `srv-1`. -/
def respEnvEx : RespEnv :=
  ⟨fun _ => some { channelId := some "chan-1", type := some "GROUP" },
   fun _ => some { serverId := some "srv-1" },
   fun _ => none,
   "http://localhost:3000"⟩

/-- Valid channel id used by the HTTP examples. -/
def uuidA : String := "11111111-1111-1111-1111-111111111111"

/-- Valid author id used by the HTTP examples. -/
def uuidB : String := "22222222-2222-2222-2222-222222222222"

/-- Valid channel id used by the upload example. -/
def uuidC : String := "33333333-3333-3333-3333-333333333333"

/-- A central database holding only the default server. -/
def dbEx : Db := ⟨[DEFAULT_SERVER_ID], [], [], []⟩

/-- A well-formed GUI POST request targeting a channel that does not
exist yet. -/
def postReqEx : PostMsgReq :=
  { channelIdRaw := uuidA, author_id := some uuidB, content := some "hi",
    server_id := some DEFAULT_SERVER_ID }

/-- The validated fields of `postReqEx`. -/
def validatedEx : ValidatedPost :=
  { channelId := uuidA, authorId := uuidB, content := "hi",
    serverId := DEFAULT_SERVER_ID }

/-- A POST request with a malformed channel id. -/
def badReqEx : PostMsgReq := { channelIdRaw := "nope" }

/-- An upload file accepted by the example allow-list. -/
def fileEx : UploadFile :=
  { mimetype := "image/png", filename := "pic.png", originalname := "pic.png", size := 10 }

/-! ## Helper lemmas about the MessageBusService step -/

theorem ensureAuthorEntityExists_memories (agentId : String) (st : MBState) (msg : BusMsg) :
    (ensureAuthorEntityExists agentId st msg).1.memories = st.memories := by
  simp only [ensureAuthorEntityExists]
  split <;> rfl

theorem ensureAuthorEntityExists_subscribed (agentId : String) (st : MBState) (msg : BusMsg) :
    (ensureAuthorEntityExists agentId st msg).1.subscribedServers = st.subscribedServers := by
  simp only [ensureAuthorEntityExists]
  split <;> rfl

theorem ensureAuthorEntityExists_no_emit (agentId : String) (st : MBState) (msg : BusMsg) :
    ((ensureAuthorEntityExists agentId st msg).2.1.filter BusEffect.isEmit) = [] := by
  simp only [ensureAuthorEntityExists]
  split <;> simp [BusEffect.isEmit]

/-- On the all-filters-pass path with no pre-existing memory under the
derived id, the step prepends the derived memory id and emits exactly one
`MESSAGE_RECEIVED`. -/
theorem handleIncomingMessage_pass_fresh (env : BusEnv) (agentId : String)
    (st : MBState) (msg : BusMsg)
    (hp : (env.participants msg.channel_id).contains agentId = true)
    (hs : validateServerSubscription st msg = true)
    (ha : validateNotSelfMessage agentId msg = true)
    (hdup : st.memories.contains (createUniqueUuid agentId msg.id) = false) :
    (handleIncomingMessage env agentId st msg).1.memories =
      createUniqueUuid agentId msg.id :: st.memories ∧
    ((handleIncomingMessage env agentId st msg).2.filter BusEffect.isEmit).length = 1 := by
  unfold handleIncomingMessage
  have hmem := ensureAuthorEntityExists_memories agentId st msg
  have hne := ensureAuthorEntityExists_no_emit agentId st msg
  have hid : (createAgentMemory agentId msg (ensureAuthorEntityExists agentId st msg).2.2
      (createUniqueUuid agentId msg.channel_id) (createUniqueUuid agentId msg.server_id)).id =
      createUniqueUuid agentId msg.id := rfl
  have hp' : agentId ∈ env.participants msg.channel_id := by simpa using hp
  have hdup' : createUniqueUuid agentId msg.id ∉ st.memories := by simpa using hdup
  simp [hp', hs, ha, hid, hmem, hdup', List.filter_append, hne, BusEffect.isEmit]

/-- On the all-filters-pass path with the derived memory id already
present, the step changes no memory and emits nothing. -/
theorem handleIncomingMessage_pass_dup (env : BusEnv) (agentId : String)
    (st : MBState) (msg : BusMsg)
    (hp : (env.participants msg.channel_id).contains agentId = true)
    (hs : validateServerSubscription st msg = true)
    (ha : validateNotSelfMessage agentId msg = true)
    (hdup : st.memories.contains (createUniqueUuid agentId msg.id) = true) :
    (handleIncomingMessage env agentId st msg).1.memories = st.memories ∧
    ((handleIncomingMessage env agentId st msg).2.filter BusEffect.isEmit) = [] := by
  unfold handleIncomingMessage
  have hmem := ensureAuthorEntityExists_memories agentId st msg
  have hne := ensureAuthorEntityExists_no_emit agentId st msg
  have hid : (createAgentMemory agentId msg (ensureAuthorEntityExists agentId st msg).2.2
      (createUniqueUuid agentId msg.channel_id) (createUniqueUuid agentId msg.server_id)).id =
      createUniqueUuid agentId msg.id := rfl
  have hp' : agentId ∈ env.participants msg.channel_id := by simpa using hp
  have hdup' : createUniqueUuid agentId msg.id ∈ st.memories := by simpa using hdup
  simp [hp', hs, ha, hid, hmem, hdup', List.filter_append, hne, BusEffect.isEmit]

/-- The step never touches the subscribed-servers set. -/
theorem handleIncomingMessage_subscribed (env : BusEnv) (agentId : String)
    (st : MBState) (msg : BusMsg) :
    (handleIncomingMessage env agentId st msg).1.subscribedServers = st.subscribedServers := by
  unfold handleIncomingMessage
  have hsub := ensureAuthorEntityExists_subscribed agentId st msg
  by_cases hp : agentId ∈ env.participants msg.channel_id
  · by_cases hs : validateServerSubscription st msg
    · by_cases ha : validateNotSelfMessage agentId msg
      · by_cases hdup : (createAgentMemory agentId msg
            (ensureAuthorEntityExists agentId st msg).2.2
            (createUniqueUuid agentId msg.channel_id)
            (createUniqueUuid agentId msg.server_id)).id ∈
            (ensureAuthorEntityExists agentId st msg).1.memories
        · simp [hp, hs, ha, hdup, hsub]
        · simp [hp, hs, ha, hdup, hsub]
      · simp only [Bool.not_eq_true] at ha
        simp [hp, hs, ha]
    · simp only [Bool.not_eq_true] at hs
      simp [hp, hs]
  · simp [hp]

/-! ## Claim theorems -/

/-- C1: delivering two bus messages with the same message id to the same
`MessageBusService` instance, both passing the participant,
server-subscription and self-author filters, creates exactly one agent
Memory and emits `MESSAGE_RECEIVED` exactly once for the first delivery
and never for the second: the second delivery finds the Memory under the
deterministic derived id and returns without creating a Memory or
emitting the event. -/
theorem handleIncomingMessage_idempotent_delivery (env : BusEnv) (agentId : String)
    (st : MBState) (m1 m2 : BusMsg)
    (hid : m2.id = m1.id)
    (hp1 : (env.participants m1.channel_id).contains agentId = true)
    (hp2 : (env.participants m2.channel_id).contains agentId = true)
    (hs1 : validateServerSubscription st m1 = true)
    (hs2 : validateServerSubscription st m2 = true)
    (ha1 : validateNotSelfMessage agentId m1 = true)
    (ha2 : validateNotSelfMessage agentId m2 = true)
    (hfresh : st.memories.contains (createUniqueUuid agentId m1.id) = false) :
    (handleIncomingMessage env agentId st m1).1.memories =
      createUniqueUuid agentId m1.id :: st.memories ∧
    ((handleIncomingMessage env agentId st m1).2.filter BusEffect.isEmit).length = 1 ∧
    (handleIncomingMessage env agentId
        (handleIncomingMessage env agentId st m1).1 m2).1.memories =
      (handleIncomingMessage env agentId st m1).1.memories ∧
    (handleIncomingMessage env agentId
        (handleIncomingMessage env agentId st m1).1 m2).2.filter BusEffect.isEmit = [] ∧
    (handleIncomingMessage env agentId
        (handleIncomingMessage env agentId st m1).1 m2).1.memories.count
      (createUniqueUuid agentId m1.id) = 1 := by
  obtain ⟨hm1, he1⟩ := handleIncomingMessage_pass_fresh env agentId st m1 hp1 hs1 ha1 hfresh
  set st1 := (handleIncomingMessage env agentId st m1).1 with hst1
  have hs2' : validateServerSubscription st1 m2 = true := by
    unfold validateServerSubscription at hs2 ⊢
    rw [hst1, handleIncomingMessage_subscribed]
    exact hs2
  have hdup2 : st1.memories.contains (createUniqueUuid agentId m2.id) = true := by
    rw [hid, hm1]
    simp
  obtain ⟨hm2, he2⟩ := handleIncomingMessage_pass_dup env agentId st1 m2 hp2 hs2' ha2 hdup2
  have hnotmem : createUniqueUuid agentId m1.id ∉ st.memories := by simpa using hfresh
  have hcount : st1.memories.count (createUniqueUuid agentId m1.id) = 1 := by
    rw [hm1]
    simp [List.count_cons, List.count_eq_zero.2 hnotmem]
  refine ⟨hm1, he1, hm2, he2, ?_⟩
  rw [hm2]
  exact hcount

/-- C1 witness: delivering the example message twice leaves exactly one
copy of the derived memory id in the store. -/
theorem handleIncomingMessage_idempotent_delivery_witness :
    (handleIncomingMessage busEnvEx "agent-1"
        (handleIncomingMessage busEnvEx "agent-1" mbStateEx busMsgEx).1 busMsgEx).1.memories.count
      (createUniqueUuid "agent-1" busMsgEx.id) = 1 :=
  (handleIncomingMessage_idempotent_delivery busEnvEx "agent-1" mbStateEx busMsgEx busMsgEx
    rfl (by decide) (by decide) (by decide) (by decide) (by decide) (by decide)
    (by decide)).2.2.2.2

/-- C2: a bus message authored by the receiving agent itself creates no
agent Memory and emits no `MESSAGE_RECEIVED` event. -/
theorem handleIncomingMessage_self_message_suppressed (env : BusEnv) (agentId : String)
    (st : MBState) (msg : BusMsg)
    (h : msg.author_id = agentId) :
    (handleIncomingMessage env agentId st msg).1.memories = st.memories ∧
    (handleIncomingMessage env agentId st msg).2.filter BusEffect.isEmit = [] := by
  unfold handleIncomingMessage
  have ha : validateNotSelfMessage agentId msg = false := by
    simp [validateNotSelfMessage, h]
  by_cases hp : agentId ∈ env.participants msg.channel_id
  · by_cases hs : validateServerSubscription st msg
    · simp [hp, hs, ha, BusEffect.isEmit]
    · simp only [Bool.not_eq_true] at hs
      simp [hp, hs, BusEffect.isEmit]
  · simp [hp, BusEffect.isEmit]

/-- C2 witness: the example self-authored message changes nothing and
emits nothing. -/
theorem handleIncomingMessage_self_message_suppressed_witness :
    (handleIncomingMessage busEnvEx "agent-1" mbStateEx selfMsgEx).1.memories =
      mbStateEx.memories ∧
    (handleIncomingMessage busEnvEx "agent-1" mbStateEx selfMsgEx).2.filter BusEffect.isEmit = [] :=
  handleIncomingMessage_self_message_suppressed busEnvEx "agent-1" mbStateEx selfMsgEx rfl

/-- C3: when the channel's participant list does not contain the agent,
`handleIncomingMessage` returns right after the participant fetch: the
state is untouched and no `ensureWorldExists`, `ensureRoomExists` or
`createEntity` call is attempted. -/
theorem handleIncomingMessage_nonparticipant_stops_early (env : BusEnv) (agentId : String)
    (st : MBState) (msg : BusMsg)
    (h : agentId ∉ env.participants msg.channel_id) :
    handleIncomingMessage env agentId st msg =
      (st, [BusEffect.fetchParticipants msg.channel_id]) ∧
    (handleIncomingMessage env agentId st msg).2.filter BusEffect.isCreation = [] := by
  have h1 : handleIncomingMessage env agentId st msg =
      (st, [BusEffect.fetchParticipants msg.channel_id]) := by
    unfold handleIncomingMessage
    simp [h]
  refine ⟨h1, ?_⟩
  rw [h1]
  simp [BusEffect.isCreation]

/-- C3 witness: an agent missing from the participant list sees only the
participant fetch. -/
theorem handleIncomingMessage_nonparticipant_stops_early_witness :
    handleIncomingMessage busEnvEx "agent-2" mbStateEx busMsgEx =
      (mbStateEx, [BusEffect.fetchParticipants busMsgEx.channel_id]) ∧
    (handleIncomingMessage busEnvEx "agent-2" mbStateEx busMsgEx).2.filter
      BusEffect.isCreation = [] :=
  handleIncomingMessage_nonparticipant_stops_early busEnvEx "agent-2" mbStateEx busMsgEx
    (by decide)

/-- C4: a bus message for a server outside `subscribedServers` is dropped
with the service and runtime state completely unchanged, so no Memory is
ever created for it. -/
theorem handleIncomingMessage_unsubscribed_server_dropped (env : BusEnv) (agentId : String)
    (st : MBState) (msg : BusMsg)
    (h : msg.server_id ∉ st.subscribedServers) :
    (handleIncomingMessage env agentId st msg).1 = st ∧
    (handleIncomingMessage env agentId st msg).2.filter BusEffect.isEmit = [] := by
  have hs : validateServerSubscription st msg = false := by
    simp [validateServerSubscription, h]
  unfold handleIncomingMessage
  by_cases hp : agentId ∈ env.participants msg.channel_id
  · simp [hp, hs, BusEffect.isEmit]
  · simp [hp, BusEffect.isEmit]

/-- C4 witness: the example message for server `srv-404` is dropped. -/
theorem handleIncomingMessage_unsubscribed_server_dropped_witness :
    (handleIncomingMessage busEnvEx "agent-1" mbStateEx unsubMsgEx).1 = mbStateEx ∧
    (handleIncomingMessage busEnvEx "agent-1" mbStateEx unsubMsgEx).2.filter
      BusEffect.isEmit = [] :=
  handleIncomingMessage_unsubscribed_server_dropped busEnvEx "agent-1" mbStateEx unsubMsgEx
    (by decide)

/-- C10: `server_agent_update` events for another agent leave
`subscribedServers` unchanged; for the owning agent, `agent_added_to_server`
adds exactly the event's serverId, `agent_removed_from_server` removes
exactly it, and any other event type changes nothing. -/
theorem handleServerAgentUpdate_spec (agentId : String) (subscribed : Finset String)
    (dAgent dType dServer : String) :
    (dAgent ≠ agentId →
      handleServerAgentUpdateSet agentId subscribed dAgent dType dServer = subscribed) ∧
    (dAgent = agentId →
      (dType = "agent_added_to_server" →
        ∀ s, s ∈ handleServerAgentUpdateSet agentId subscribed dAgent dType dServer ↔
          (s = dServer ∨ s ∈ subscribed)) ∧
      (dType = "agent_removed_from_server" →
        ∀ s, s ∈ handleServerAgentUpdateSet agentId subscribed dAgent dType dServer ↔
          (s ∈ subscribed ∧ s ≠ dServer)) ∧
      (dType ≠ "agent_added_to_server" → dType ≠ "agent_removed_from_server" →
        handleServerAgentUpdateSet agentId subscribed dAgent dType dServer = subscribed)) := by
  constructor
  · intro h
    simp [handleServerAgentUpdateSet, h]
  · intro h
    subst h
    refine ⟨?_, ?_, ?_⟩
    · intro ht s
      subst ht
      simp [handleServerAgentUpdateSet, Finset.mem_insert]
    · intro ht s
      subst ht
      simp [handleServerAgentUpdateSet, Finset.mem_erase, and_comm]
    · intro h1 h2
      simp [handleServerAgentUpdateSet, h1, h2]

/-- C10 witness: adding `srv-2` for the owning agent yields exactly the
old set plus `srv-2`. -/
theorem handleServerAgentUpdate_spec_witness :
    "srv-2" ∈ handleServerAgentUpdateSet "agent-1" {"srv-1"} "agent-1"
        "agent_added_to_server" "srv-2" ↔
      ("srv-2" = "srv-2" ∨ "srv-2" ∈ ({"srv-1"} : Finset String)) :=
  ((handleServerAgentUpdate_spec "agent-1" {"srv-1"} "agent-1" "agent_added_to_server"
    "srv-2").2 rfl).1 rfl "srv-2"

/-- C5: a generated reply carrying an IGNORE action, or missing /
whitespace-only text, is never POSTed to the central submit endpoint;
otherwise, when the agent room and world map back to a central channel id
and server id, the reply is POSTed to
`{CENTRAL_MESSAGE_SERVER_URL}/api/messages/submit`. -/
theorem sendAgentResponseToBus_filters (env : RespEnv) (agentId agentName : String)
    (agentRoomId agentWorldId : String) (content : ReplyContent)
    (irt : Option String) (orig : Option BusMsg) :
    ((hasIgnoreAction content = true ∨ blankText content = true) →
      sendAgentResponseToBus env agentId agentName agentRoomId agentWorldId content
        irt orig = none) ∧
    ((hasIgnoreAction content = false ∧ blankText content = false ∧
      jsTruthy ((env.getRoom agentRoomId).bind (fun r => r.channelId)) = true ∧
      jsTruthy ((env.getWorld agentWorldId).bind (fun w => w.serverId)) = true) →
      ∃ p, sendAgentResponseToBus env agentId agentName agentRoomId agentWorldId content
          irt orig = some p ∧
        p.url = env.baseUrl ++ "/api/messages/submit" ∧
        p.payload.content = content.text.getD "") := by
  constructor
  · rintro (h | h)
    · simp [sendAgentResponseToBus, h]
    · by_cases hi : hasIgnoreAction content <;>
        simp [sendAgentResponseToBus, hi, h]
  · rintro ⟨h1, h2, h3, h4⟩
    simp [sendAgentResponseToBus, h1, h2, h3, h4]

/-- C5 witness: a reply with an IGNORE action produces no submit POST. -/
theorem sendAgentResponseToBus_filters_witness :
    sendAgentResponseToBus respEnvEx "agent-1" "Agent" "room-1" "world-1"
      ignoreContentEx none none = none :=
  (sendAgentResponseToBus_filters respEnvEx "agent-1" "Agent" "room-1" "world-1"
    ignoreContentEx none none).1 (Or.inl (by decide))

/-- C9: with a valid channel id and an attached file, the upload route
answers 400 whenever the MIME type is outside the allow-list, the
filename is missing or contains ".." or "/", or the size exceeds the
50 MB ceiling; otherwise it answers success with the relative URL
`/media/uploads/channels/{channelId}/{filename}`. -/
theorem handleChannelUpload_validation (allowed : List String) (cidRaw : String)
    (f : UploadFile)
    (hcid : isValidUuidStr cidRaw = true) :
    ((allowed.contains f.mimetype = false ∨ f.filename = "" ∨
      strIncludes f.filename ".." = true ∨ strIncludes f.filename "/" = true ∨
      MAX_UPLOAD_BYTES < f.size) →
      (handleChannelUpload allowed cidRaw (some f)).1 = 400) ∧
    ((allowed.contains f.mimetype = true ∧ f.filename ≠ "" ∧
      strIncludes f.filename ".." = false ∧ strIncludes f.filename "/" = false ∧
      f.size ≤ MAX_UPLOAD_BYTES) →
      handleChannelUpload allowed cidRaw (some f) =
        (200, some
          { url := "/media/uploads/channels/" ++ cidRaw ++ "/" ++ f.filename
            type := f.mimetype
            filename := f.filename
            originalName := f.originalname
            size := f.size })) := by
  have hval : validateUuid cidRaw = some cidRaw := by simp [validateUuid, hcid]
  constructor
  · intro h
    by_cases hm : f.mimetype ∈ allowed
    · by_cases hff : (f.filename = "" ∨ strIncludes f.filename ".." = true) ∨
          strIncludes f.filename "/" = true
      · simp [handleChannelUpload, hval, hm, hff]
      · have hsize : MAX_UPLOAD_BYTES < f.size := by
          rcases h with h | h | h | h | h
          · exact absurd hm (by simpa using h)
          · exact absurd (Or.inl (Or.inl h)) hff
          · exact absurd (Or.inl (Or.inr h)) hff
          · exact absurd (Or.inr h) hff
          · exact h
        simp [handleChannelUpload, hval, hm, hff, hsize]
    · simp [handleChannelUpload, hval, hm]
  · rintro ⟨h1, h2, h3, h4, h5⟩
    have hm : f.mimetype ∈ allowed := by simpa using h1
    have h5' : ¬ MAX_UPLOAD_BYTES < f.size := not_lt.2 h5
    simp [handleChannelUpload, hval, hm, h2, h3, h4, h5']

/-- C9 witness: a small allowed PNG with a clean filename is accepted and
given the canonical relative URL. -/
theorem handleChannelUpload_validation_witness :
    handleChannelUpload ["image/png"] uuidC (some fileEx) =
      (200, some
        { url := "/media/uploads/channels/" ++ uuidC ++ "/" ++ fileEx.filename
          type := fileEx.mimetype
          filename := fileEx.filename
          originalName := fileEx.originalname
          size := fileEx.size }) :=
  (handleChannelUpload_validation ["image/png"] uuidC fileEx (by decide)).2
    ⟨by decide, by decide, by decide, by decide, by decide⟩

/-- When any of the four request validations fails the guard yields
nothing. -/
theorem postValidation_none (req : PostMsgReq)
    (h : isValidUuidStr req.channelIdRaw = false ∨ validateUuidOpt req.author_id = none ∨
         req.content = none ∨ serverIdAccepted req.server_id = false) :
    postValidation req = none := by
  unfold postValidation
  split
  · rename_i cid aid c sid hcid haid hc hsid
    rcases h with h | h | h | h
    · rw [validateUuid, h] at hcid
      cases hcid
    · rw [h] at haid
      cases haid
    · rw [h] at hc
      cases hc
    · simp [h]
  · rfl

/-- Inversion of a passing guard: the submitted content field is exactly
the validated content. -/
theorem postValidation_some_content (req : PostMsgReq) (v : ValidatedPost)
    (hv : postValidation req = some v) : req.content = some v.content := by
  unfold postValidation at hv
  split at hv
  · rename_i cid aid c sid hcid haid hc hsid
    split at hv
    · cases hv
      exact hc
    · cases hv
  · cases hv

/-- C7: a POST whose channel id or author id is not a valid UUID, whose
content is missing, or whose server id is neither the reserved all-zero
default nor a valid UUID, answers 400 with no side effects: database
untouched, no database writes, no bus event, no socket event. -/
theorem handlePostChannelMessage_invalid_400 (db : Db) (hasSocket : Bool)
    (freshId : String) (now : Nat) (req : PostMsgReq)
    (h : isValidUuidStr req.channelIdRaw = false ∨ validateUuidOpt req.author_id = none ∨
         req.content = none ∨ serverIdAccepted req.server_id = false) :
    handlePostChannelMessage db hasSocket freshId now req =
      { status := 400, db := db, dbTrace := [], busEvents := [],
        socketEvents := [], resBody := none } := by
  have hv : postValidation req = none := postValidation_none req h
  unfold handlePostChannelMessage
  rw [hv]

/-- C7 witness: the malformed example request is rejected without side
effects. -/
theorem handlePostChannelMessage_invalid_400_witness :
    handlePostChannelMessage dbEx true "msg-9" 7 badReqEx =
      { status := 400, db := dbEx, dbTrace := [], busEvents := [],
        socketEvents := [], resBody := none } :=
  handlePostChannelMessage_invalid_400 dbEx true "msg-9" 7 badReqEx (Or.inl (by decide))

/-- C6: a valid POST for a missing channel whose server exists
auto-creates the channel — typed DM when the metadata marks a DM and
GROUP otherwise, with the author plus the optional DM target as
participants — strictly before the message row is created, answers 201
with the stored message, and emits exactly one `new_message` bus event
whose id is the stored message's id. -/
theorem handlePostChannelMessage_autocreate (db : Db) (hasSocket : Bool)
    (freshId : String) (now : Nat) (req : PostMsgReq) (v : ValidatedPost)
    (hv : postValidation req = some v)
    (hch : db.channels.any (fun c => c.id == v.channelId) = false)
    (hsrv : db.servers.contains v.serverId = true)
    (hfresh : freshId ≠ "") :
    (handlePostChannelMessage db hasSocket freshId now req).status = 201 ∧
    (handlePostChannelMessage db hasSocket freshId now req).resBody =
      some (busMessageOf req v (storedMessage req v freshId now)) ∧
    (storedMessage req v freshId now).id = freshId ∧
    (handlePostChannelMessage db hasSocket freshId now req).dbTrace =
      [DbOp.createChannel (autoChannelData req v now) (autoParticipants req v),
       DbOp.createMessage (storedMessage req v freshId now)] ∧
    (handlePostChannelMessage db hasSocket freshId now req).busEvents =
      [BusEvent.new_message (busMessageOf req v (storedMessage req v freshId now))] ∧
    (busMessageOf req v (storedMessage req v freshId now)).id = freshId ∧
    autoChannelData req v now ∈ (handlePostChannelMessage db hasSocket freshId now req).db.channels ∧
    (autoChannelData req v now).type = (if isDmRequest req.metadata then "DM" else "GROUP") ∧
    (v.channelId, autoParticipants req v) ∈
      (handlePostChannelMessage db hasSocket freshId now req).db.channelParticipants := by
  have hsrv' : v.serverId ∈ db.servers := by simpa using hsrv
  unfold handlePostChannelMessage
  rw [hv]
  simp [hch, hsrv', finishCreateMessage, hfresh, autoChannelData]
  exact ⟨rfl, rfl⟩

/-- C6 witness: the example request auto-creates channel `uuidA` and
stores message `msg-9` after it. -/
theorem handlePostChannelMessage_autocreate_witness :
    (handlePostChannelMessage dbEx false "msg-9" 7 postReqEx).status = 201 ∧
    (handlePostChannelMessage dbEx false "msg-9" 7 postReqEx).dbTrace =
      [DbOp.createChannel (autoChannelData postReqEx validatedEx 7)
         (autoParticipants postReqEx validatedEx),
       DbOp.createMessage (storedMessage postReqEx validatedEx "msg-9" 7)] :=
  ⟨(handlePostChannelMessage_autocreate dbEx false "msg-9" 7 postReqEx validatedEx
      (by decide) (by decide) (by decide) (by decide)).1,
   (handlePostChannelMessage_autocreate dbEx false "msg-9" 7 postReqEx validatedEx
      (by decide) (by decide) (by decide) (by decide)).2.2.2.1⟩

/-- C8: a successfully submitted message is stored with exactly the
submitted content, and the client-side UI transform of its GET-route
representation exposes that content as the `text` field. -/
theorem postGetRoundTrip (db : Db) (hasSocket : Bool) (freshId : String) (now : Nat)
    (req : PostMsgReq) (v : ValidatedPost) (clientId userName : String)
    (initSid sidUse : Option String)
    (hv : postValidation req = some v)
    (hfresh : freshId ≠ "")
    (hok : db.channels.any (fun c => c.id == v.channelId) = true ∨
           db.servers.contains v.serverId = true) :
    (handlePostChannelMessage db hasSocket freshId now req).status = 201 ∧
    storedMessage req v freshId now ∈
      (handlePostChannelMessage db hasSocket freshId now req).db.messages ∧
    req.content = some v.content ∧
    (transformServerMessageToUiMessage clientId userName initSid sidUse
      (transformMessageForGui (storedMessage req v freshId now))).text = v.content := by
  have hcontent := postValidation_some_content req v hv
  have htext : (transformServerMessageToUiMessage clientId userName initSid sidUse
      (transformMessageForGui (storedMessage req v freshId now))).text = v.content := rfl
  by_cases hch : db.channels.any (fun c => c.id == v.channelId) = true
  · refine ⟨?_, ?_, hcontent, htext⟩ <;>
      · unfold handlePostChannelMessage
        rw [hv]
        simp [hch, finishCreateMessage, hfresh]
  · have hsrv : db.servers.contains v.serverId = true := by
      rcases hok with h | h
      · exact absurd h hch
      · exact h
    have hsrv' : v.serverId ∈ db.servers := by simpa using hsrv
    have hch' : db.channels.any (fun c => c.id == v.channelId) = false := by
      simpa using hch
    refine ⟨?_, ?_, hcontent, htext⟩ <;>
      · unfold handlePostChannelMessage
        rw [hv]
        simp [hch', hsrv', finishCreateMessage, hfresh]

/-- C8 witness: the example submission round-trips its content "hi" into
the UI text field. -/
theorem postGetRoundTrip_witness :
    (transformServerMessageToUiMessage "client-1" "User" none none
      (transformMessageForGui (storedMessage postReqEx validatedEx "msg-9" 7))).text = "hi" :=
  (postGetRoundTrip dbEx false "msg-9" 7 postReqEx validatedEx "client-1" "User" none none
    (by decide) (by decide) (Or.inr (by decide))).2.2.2

end Eliza
